import Mathlib

/-!
Shallow embedding of the teacher-portal web backend (`teacher/teacher_app.py`).

The database tables (Teachers, Classes, Subjects, Schedules, Students,
attendance) are modelled as lists of records; parameterized SQL queries become
list operations (`filter`, `find?`, `insertionSort`).  HTTP/JSON values coming
from the client are modelled with `Option` (a missing query parameter or JSON
key is `none`), and Python truthiness tests (`if not x`, `all([...])`) are
embedded explicitly.  Each request handler becomes a pure function from the
database, the session and the request arguments to a response; handlers that
open a database connection additionally take
  * `connOk : Bool` — whether `create_connection()` succeeds, and
  * `dbFault : Option String` — `some msg` iff the database driver raises a
    `mysql.connector.Error` with message `msg` inside the `try` block,
and return a `ConnLog` recording whether a connection was acquired and whether
the `finally` block closed it.  Exceptions that the handler does not catch
(e.g. a `KeyError` escaping `mark_attendance`) are a distinct `unhandled`
outcome, not a JSON response.
-/

namespace TeacherApp

/-- A row of the `Teachers` table. -/
structure Teacher where
  teacher_id : Nat
  name : String
  email : String
  password : String
deriving DecidableEq

/-- A row of the `Classes` table. -/
structure SchoolClass where
  class_id : Nat
  class_name : String
deriving DecidableEq

/-- A row of the `Subjects` table. -/
structure Subject where
  subject_id : Nat
  subject_name : String
deriving DecidableEq

/-- A row of the `Schedules` table.  `schedule_id` is kept as a string because
request parameters arrive as strings and are compared against it; times are
already strings (the handlers coerce them with `str`). -/
structure Schedule where
  schedule_id : String
  teacher_id : Nat
  class_id : Nat
  subject_id : Nat
  batch : String
  day_of_week : String
  start_time : String
  end_time : String
deriving DecidableEq

/-- A row of the `Students` table. -/
structure Student where
  student_id : Nat
  name : String
  email : String
  batch : String
deriving DecidableEq

/-- A row of the `attendance` table; unique key `(student_id, schedule_id,
attendance_date)`, `timestamp` nullable. -/
structure AttendanceRow where
  student_id : Nat
  schedule_id : String
  attendance_date : String
  status : String
  timestamp : Option String
deriving DecidableEq

/-- The whole database state. -/
structure DB where
  teachers : List Teacher
  classes : List SchoolClass
  subjects : List Subject
  schedules : List Schedule
  students : List Student
  attendance : List AttendanceRow
deriving DecidableEq

/-- The Flask session dict, restricted to the three keys this app uses.
A key absent from the session dict is `none`. -/
structure Session where
  user_type : Option String
  user_id : Option Nat
  user_name : Option String
deriving DecidableEq

/-- Whether a connection was acquired by the handler and whether it was
closed by its `finally` block. -/
structure ConnLog where
  acquired : Bool
  closed : Bool
deriving DecidableEq

/-- Python truthiness of an optional string: `None` and `''` are falsy. -/
def pyTruthyOptStr : Option String → Bool
  | none => false
  | some s => s ≠ ""

/-- Python truthiness of an optional list: `None` and `[]` are falsy. -/
def pyTruthyOptList {α : Type} : Option (List α) → Bool
  | none => false
  | some l => !l.isEmpty

/-- The test of the `teacher_required` decorator:
`'user_type' not in session or session['user_type'] != 'teacher'`. -/
def teacherAuthFails (sess : Session) : Bool :=
  match sess.user_type with
  | none => true
  | some t => t ≠ "teacher"

/-- Outcome of the `teacher_required` decorator. -/
inductive Gate where
  | deny401
  | redirectLogin
  | allow
deriving DecidableEq

/-- Python's `s.startswith(pre)`, computed on character lists so that the
kernel can evaluate it on concrete strings. -/
def pyStartsWith (s pre : String) : Bool := pre.data.isPrefixOf s.data

/-- The `teacher_required` decorator: unauthenticated callers get a 401 JSON
error on `/api/` paths and a redirect to the login page elsewhere. -/
def teacher_required (sess : Session) (path : String) : Gate :=
  if teacherAuthFails sess then
    if pyStartsWith path "/api/" then Gate.deny401 else Gate.redirectLogin
  else Gate.allow

/-- `SELECT batch FROM Schedules WHERE schedule_id = %s` + `fetchone()`:
first schedule row whose id matches. -/
def findSchedule (db : DB) (sid : String) : Option Schedule :=
  db.schedules.find? (fun s => s.schedule_id == sid)

/-- `SELECT * FROM Teachers WHERE email = %s AND password = %s` + `fetchone()`. -/
def findTeacher (db : DB) (e p : String) : Option Teacher :=
  db.teachers.find? (fun t => t.email == e && t.password == p)

/-- Ordering used by `ORDER BY name` on students. -/
def studentLE (a b : Student) : Prop := a.name ≤ b.name

instance : DecidableRel studentLE := fun a b =>
  inferInstanceAs (Decidable (a.name ≤ b.name))

instance : IsTotal Student studentLE := ⟨fun a b => le_total a.name b.name⟩

instance : IsTrans Student studentLE := ⟨fun _ _ _ h h2 => le_trans h h2⟩

/-- `SELECT ... FROM Students WHERE batch = %s ORDER BY name`: all students of
the batch, sorted by name. -/
def rosterForBatch (db : DB) (batch : String) : List Student :=
  List.insertionSort studentLE (db.students.filter (fun s => s.batch == batch))

/-- `SELECT student_id, status, timestamp FROM attendance WHERE schedule_id =
%s AND attendance_date = %s`. -/
def attendanceFor (db : DB) (sid date : String) : List AttendanceRow :=
  db.attendance.filter (fun r => r.schedule_id == sid && r.attendance_date == date)

/-- The dict built by `{rec['student_id']: rec for rec in ...}` followed by
`.get(student_id)`: the last row with the key wins, `none` when absent. -/
def lookupRecord (rows : List AttendanceRow) (student_id : Nat) : Option AttendanceRow :=
  rows.foldl (fun acc r => if r.student_id == student_id then some r else acc) none

/-- One record of the merged attendance view. -/
structure AttendanceViewRecord where
  student_id : Nat
  student_name : String
  student_email : String
  status : String
  timestamp : Option String
deriving DecidableEq

/-- The per-student merge step of `view_attendance`: use the matching
attendance row's status when present, else `'absent'`; the timestamp is
`str(record['timestamp'])` when the record exists and its timestamp is truthy,
else `None`. -/
def mergeRow (st : Student) (rec : Option AttendanceRow) : AttendanceViewRecord :=
  { student_id := st.student_id
    student_name := st.name
    student_email := st.email
    status := match rec with
      | some r => r.status
      | none => "absent"
    timestamp := match rec with
      | some r => if pyTruthyOptStr r.timestamp then r.timestamp else none
      | none => none }

/-- Responses of the `view_attendance` handler. -/
inductive ViewResult where
  | ok (data : List AttendanceViewRecord)
  | error (code : Nat) (message : String)
deriving DecidableEq

/-- Response plus connection lifecycle of one `view_attendance` request. -/
structure ViewRun where
  resp : ViewResult
  conn : ConnLog
deriving DecidableEq

/-- The `view_attendance` handler (`GET /api/teacher/attendance`): auth gate,
parameter check, schedule→batch resolution, roster and attendance queries,
and the merge loop.  `mysql.connector.Error` is caught and mapped to a 500
JSON response. -/
def view_attendance_run (db : DB) (sess : Session) (schedule_id date : Option String)
    (connOk : Bool) (dbFault : Option String) : ViewRun :=
  if teacherAuthFails sess then
    ⟨ViewResult.error 401 "Authentication required", ⟨false, false⟩⟩
  else if !pyTruthyOptStr schedule_id || !pyTruthyOptStr date then
    ⟨ViewResult.error 400 "Schedule ID and date are required.", ⟨false, false⟩⟩
  else if !connOk then
    ⟨ViewResult.error 500 "Database error", ⟨false, false⟩⟩
  else
    let sid := schedule_id.getD ""
    let d := date.getD ""
    let body : ViewResult :=
      match dbFault with
      | some msg => ViewResult.error 500 ("Database error: " ++ msg)
      | none =>
        match findSchedule db sid with
        | none => ViewResult.error 404 "Schedule not found."
        | some sch =>
          let roster := rosterForBatch db sch.batch
          let recs := attendanceFor db sid d
          ViewResult.ok (roster.map (fun st => mergeRow st (lookupRecord recs st.student_id)))
    ⟨body, ⟨true, true⟩⟩

/-- Responses of the `get_class_students` handler.  (That handler's query also
selects the `batch` column, so its rows are full `Student` records.) -/
inductive StudentsResult where
  | ok (data : List Student)
  | error (code : Nat) (message : String)
deriving DecidableEq

/-- Response plus connection lifecycle of one `get_class_students` request. -/
structure StudentsRun where
  resp : StudentsResult
  conn : ConnLog
deriving DecidableEq

/-- The `get_class_students` handler (`GET /api/teacher/class_students`):
auth gate, `schedule_id` presence check (400), schedule lookup (404), then all
students of the schedule's batch ordered by name; `mysql.connector.Error` is
caught and mapped to a 500 JSON response. -/
def get_class_students_run (db : DB) (sess : Session) (schedule_id : Option String)
    (connOk : Bool) (dbFault : Option String) : StudentsRun :=
  if teacherAuthFails sess then
    ⟨StudentsResult.error 401 "Authentication required", ⟨false, false⟩⟩
  else if !pyTruthyOptStr schedule_id then
    ⟨StudentsResult.error 400 "Schedule ID is required.", ⟨false, false⟩⟩
  else if !connOk then
    ⟨StudentsResult.error 500 "Database error", ⟨false, false⟩⟩
  else
    let sid := schedule_id.getD ""
    let body : StudentsResult :=
      match dbFault with
      | some msg => StudentsResult.error 500 ("Database Error: " ++ msg)
      | none =>
        match findSchedule db sid with
        | none => StudentsResult.error 404 "Schedule not found."
        | some sch => StudentsResult.ok (rosterForBatch db sch.batch)
    ⟨body, ⟨true, true⟩⟩

/-- One element of the `attendance_data` JSON list sent to `mark_attendance`.
A dict that may or may not carry each key. -/
structure AttendanceItem where
  student_id : Option Nat
  status : Option String
deriving DecidableEq

/-- One tuple of the `records` list built by `mark_attendance`. -/
structure UpsertRecord where
  student_id : Nat
  schedule_id : String
  attendance_date : String
  status : String
deriving DecidableEq

/-- The list comprehension
`[(item['student_id'], schedule_id, date, item['status']) for item in ...]`:
subscripting a dict without the key raises `KeyError`, which the handler does
not catch. -/
def buildRecords (sid date : String) : List AttendanceItem → Except String (List UpsertRecord)
  | [] => Except.ok []
  | it :: rest =>
    match it.student_id with
    | none => Except.error "KeyError: student_id"
    | some s =>
      match it.status with
      | none => Except.error "KeyError: status"
      | some st =>
        match buildRecords sid date rest with
        | Except.ok rs => Except.ok (⟨s, sid, date, st⟩ :: rs)
        | Except.error e => Except.error e

/-- Whether an attendance row has the unique key of an upsert record. -/
def sameKey (r : AttendanceRow) (u : UpsertRecord) : Bool :=
  r.student_id == u.student_id && r.schedule_id == u.schedule_id
    && r.attendance_date == u.attendance_date

/-- One `INSERT ... ON DUPLICATE KEY UPDATE status = VALUES(status)`:
update the status of the row with the same unique key when one exists, else
append a new row (its timestamp left to the schema default, modelled `none`);
the returned count follows the MySQL affected-rows convention (1 insert,
2 update that changes the row, 0 duplicate with unchanged values). -/
def upsertOne (tbl : List AttendanceRow) (u : UpsertRecord) : List AttendanceRow × Nat :=
  if tbl.any (fun r => sameKey r u) then
    (tbl.map (fun r => if sameKey r u then { r with status := u.status } else r),
     if tbl.any (fun r => sameKey r u && r.status ≠ u.status) then 2 else 0)
  else
    (tbl ++ [⟨u.student_id, u.schedule_id, u.attendance_date, u.status, none⟩], 1)

/-- `cursor.executemany` over the upserts: thread the table through the
records, accumulating the affected-row count. -/
def executeMany (tbl : List AttendanceRow) : List UpsertRecord → List AttendanceRow × Nat
  | [] => (tbl, 0)
  | u :: us =>
    let t1 := upsertOne tbl u
    let t2 := executeMany t1.1 us
    (t2.1, t1.2 + t2.2)

/-- Responses of the `mark_attendance` handler.  `ok n` is the success JSON
whose message interpolates `cursor.rowcount = n`; `unhandled e` is an
exception (`KeyError`) that escapes the handler uncaught, so no uniform JSON
body is produced. -/
inductive MarkResult where
  | ok (rowcount : Nat)
  | error (code : Nat) (message : String)
  | unhandled (exn : String)
deriving DecidableEq

/-- Does a `mark_attendance` outcome have the uniform
`{success: false, message}` JSON error shape the handler emits? -/
def isUniformJsonError : MarkResult → Bool
  | MarkResult.error _ _ => true
  | _ => false

/-- Response, resulting `attendance` table and connection lifecycle of one
`mark_attendance` request. -/
structure MarkRun where
  resp : MarkResult
  attendance : List AttendanceRow
  conn : ConnLog
deriving DecidableEq

/-- The `mark_attendance` handler (`POST /api/teacher/mark_attendance`):
auth gate, `all([schedule_id, date, attendance_data])` presence check, then
the batched upsert inside a transaction.  A `mysql.connector.Error` triggers
`conn.rollback()` (table unchanged) and a 500 JSON with the error text; a
`KeyError` from the record-building comprehension is not caught (no write is
attempted, the `finally` block still closes the connection). -/
def mark_attendance_run (db : DB) (sess : Session) (schedule_id date : Option String)
    (attendance_data : Option (List AttendanceItem)) (connOk : Bool)
    (dbFault : Option String) : MarkRun :=
  if teacherAuthFails sess then
    ⟨MarkResult.error 401 "Authentication required", db.attendance, ⟨false, false⟩⟩
  else if !(pyTruthyOptStr schedule_id && pyTruthyOptStr date
      && pyTruthyOptList attendance_data) then
    ⟨MarkResult.error 400 "Missing required data.", db.attendance, ⟨false, false⟩⟩
  else if !connOk then
    ⟨MarkResult.error 500 "Database error", db.attendance, ⟨false, false⟩⟩
  else
    let sid := schedule_id.getD ""
    let d := date.getD ""
    let items := attendance_data.getD []
    let body : MarkResult × List AttendanceRow :=
      match buildRecords sid d items with
      | Except.error e => (MarkResult.unhandled e, db.attendance)
      | Except.ok recs =>
        match dbFault with
        | some msg => (MarkResult.error 500 msg, db.attendance)
        | none =>
          let r := executeMany db.attendance recs
          (MarkResult.ok r.2, r.1)
    ⟨body.1, body.2, ⟨true, true⟩⟩

/-- Responses of the `teacher_login_action` handler. -/
inductive LoginResult where
  | ok (name : String) (id : Nat)
  | error (code : Nat) (message : String)
  | unhandled (exn : String)
deriving DecidableEq

/-- Response, resulting session and connection lifecycle of one login request.
`teacher_login_action` has no `except` clause, so a database error inside its
`try` block escapes uncaught (after the `finally` closes the connection). -/
structure LoginRun where
  resp : LoginResult
  sess : Session
  conn : ConnLog
deriving DecidableEq

/-- The `teacher_login_action` handler (`POST /teacher/login`): presence check
on email and password (400), then a credentials lookup; a match stores
`user_type`, `user_id` and `user_name` in the session, a miss returns 401 and
leaves the session untouched. -/
def teacher_login_action (db : DB) (sess : Session) (email password : Option String)
    (connOk : Bool) (dbFault : Option String) : LoginRun :=
  if !pyTruthyOptStr email || !pyTruthyOptStr password then
    ⟨LoginResult.error 400 "Email and password are required.", sess, ⟨false, false⟩⟩
  else if !connOk then
    ⟨LoginResult.error 500 "Database error", sess, ⟨false, false⟩⟩
  else
    match dbFault with
    | some msg => ⟨LoginResult.unhandled msg, sess, ⟨true, true⟩⟩
    | none =>
      match findTeacher db (email.getD "") (password.getD "") with
      | some t =>
        ⟨LoginResult.ok t.name t.teacher_id,
         ⟨some "teacher", some t.teacher_id, some t.name⟩, ⟨true, true⟩⟩
      | none => ⟨LoginResult.error 401 "Invalid credentials.", sess, ⟨true, true⟩⟩

/-- Responses of the `teacher_session` handler. -/
inductive SessionResult where
  | loggedIn (id : Option Nat) (name : Option String)
  | notLoggedIn
deriving DecidableEq

/-- The `teacher_session` handler (`GET /api/teacher/session`).  It is NOT
wrapped in `teacher_required`; both branches answer with HTTP status 200
(the second component), and the not-logged-in branch carries no teacher
data. -/
def teacher_session (sess : Session) : SessionResult × Nat :=
  if sess.user_type == some "teacher" then
    (SessionResult.loggedIn sess.user_id sess.user_name, 200)
  else
    (SessionResult.notLoggedIn, 200)

/-- A row of the weekly-schedule query result (times already strings). -/
structure ScheduleRow where
  day_of_week : String
  start_time : String
  end_time : String
  batch : String
  class_name : String
  subject_name : String
deriving DecidableEq

/-- The `Schedules ⋈ Classes ⋈ Subjects` join filtered by teacher id, as in
`get_teacher_schedule`. -/
def weeklyScheduleQuery (db : DB) (tid : Nat) : List ScheduleRow :=
  db.schedules.flatMap (fun s =>
    (db.classes.filter (fun c => c.class_id == s.class_id)).flatMap (fun c =>
      (db.subjects.filter (fun sub => sub.subject_id == s.subject_id)).flatMap (fun sub =>
        if s.teacher_id == tid then
          [⟨s.day_of_week, s.start_time, s.end_time, s.batch, c.class_name, sub.subject_name⟩]
        else [])))

/-- Responses of the three schedule-reading handlers.  They have no `except`
clause, so a database error escapes uncaught. -/
inductive ScheduleResult (ρ : Type) where
  | ok (data : List ρ)
  | error (code : Nat) (message : String)
  | unhandled (exn : String)
deriving DecidableEq

/-- Response plus connection lifecycle of one schedule-reading request. -/
structure ScheduleRun (ρ : Type) where
  resp : ScheduleResult ρ
  conn : ConnLog
deriving DecidableEq

/-- The `get_teacher_schedule` handler (`GET /api/teacher/schedule`).
`session.get('user_id')` may be absent; SQL `= NULL` matches no row. -/
def get_teacher_schedule (db : DB) (sess : Session) (connOk : Bool)
    (dbFault : Option String) : ScheduleRun ScheduleRow :=
  if teacherAuthFails sess then
    ⟨ScheduleResult.error 401 "Authentication required", ⟨false, false⟩⟩
  else if !connOk then
    ⟨ScheduleResult.error 500 "Database error", ⟨false, false⟩⟩
  else
    let body : ScheduleResult ScheduleRow :=
      match dbFault with
      | some msg => ScheduleResult.unhandled msg
      | none =>
        match sess.user_id with
        | none => ScheduleResult.ok []
        | some tid => ScheduleResult.ok (weeklyScheduleQuery db tid)
    ⟨body, ⟨true, true⟩⟩

/-- A row of the today-classes query result. -/
structure TodayRow where
  schedule_id : String
  start_time : String
  end_time : String
  batch : String
  class_name : String
  subject_name : String
deriving DecidableEq

/-- Ordering used by `ORDER BY s.start_time`. -/
def todayLE (a b : TodayRow) : Prop := a.start_time ≤ b.start_time

instance : DecidableRel todayLE := fun a b =>
  inferInstanceAs (Decidable (a.start_time ≤ b.start_time))

/-- The join of `get_today_classes`, filtered to one day name and ordered by
start time. -/
def todayClassesQuery (db : DB) (tid : Nat) (today : String) : List TodayRow :=
  List.insertionSort todayLE
    (db.schedules.flatMap (fun s =>
      (db.classes.filter (fun c => c.class_id == s.class_id)).flatMap (fun c =>
        (db.subjects.filter (fun sub => sub.subject_id == s.subject_id)).flatMap (fun sub =>
          if s.teacher_id == tid && s.day_of_week == today then
            [⟨s.schedule_id, s.start_time, s.end_time, s.batch, c.class_name, sub.subject_name⟩]
          else []))))

/-- The `get_today_classes` handler (`GET /api/teacher/today_classes`);
`today` stands for `datetime.datetime.now().strftime('%A')`. -/
def get_today_classes (db : DB) (sess : Session) (today : String) (connOk : Bool)
    (dbFault : Option String) : ScheduleRun TodayRow :=
  if teacherAuthFails sess then
    ⟨ScheduleResult.error 401 "Authentication required", ⟨false, false⟩⟩
  else if !connOk then
    ⟨ScheduleResult.error 500 "Database error", ⟨false, false⟩⟩
  else
    let body : ScheduleResult TodayRow :=
      match dbFault with
      | some msg => ScheduleResult.unhandled msg
      | none =>
        match sess.user_id with
        | none => ScheduleResult.ok []
        | some tid => ScheduleResult.ok (todayClassesQuery db tid today)
    ⟨body, ⟨true, true⟩⟩

/-- A row of the distinct-classes query result. -/
structure AllClassRow where
  schedule_id : String
  class_name : String
  subject_name : String
  batch : String
deriving DecidableEq

/-- Ordering used by `ORDER BY c.class_name, sub.subject_name, s.batch`. -/
def allClassLE (a b : AllClassRow) : Prop :=
  a.class_name < b.class_name ∨
    (a.class_name = b.class_name ∧
      (a.subject_name < b.subject_name ∨
        (a.subject_name = b.subject_name ∧ a.batch ≤ b.batch)))

instance : DecidableRel allClassLE := fun a b =>
  inferInstanceAs (Decidable (a.class_name < b.class_name ∨
    (a.class_name = b.class_name ∧
      (a.subject_name < b.subject_name ∨
        (a.subject_name = b.subject_name ∧ a.batch ≤ b.batch)))))

/-- The `SELECT DISTINCT ... ORDER BY ...` join of `get_all_teacher_classes`. -/
def allClassesQuery (db : DB) (tid : Nat) : List AllClassRow :=
  List.insertionSort allClassLE
    ((db.schedules.flatMap (fun s =>
      (db.classes.filter (fun c => c.class_id == s.class_id)).flatMap (fun c =>
        (db.subjects.filter (fun sub => sub.subject_id == s.subject_id)).flatMap (fun sub =>
          if s.teacher_id == tid then
            [(⟨s.schedule_id, c.class_name, sub.subject_name, s.batch⟩ : AllClassRow)]
          else [])))).dedup)

/-- The `get_all_teacher_classes` handler (`GET /api/teacher/all_classes`). -/
def get_all_teacher_classes (db : DB) (sess : Session) (connOk : Bool)
    (dbFault : Option String) : ScheduleRun AllClassRow :=
  if teacherAuthFails sess then
    ⟨ScheduleResult.error 401 "Authentication required", ⟨false, false⟩⟩
  else if !connOk then
    ⟨ScheduleResult.error 500 "Database error", ⟨false, false⟩⟩
  else
    let body : ScheduleResult AllClassRow :=
      match dbFault with
      | some msg => ScheduleResult.unhandled msg
      | none =>
        match sess.user_id with
        | none => ScheduleResult.ok []
        | some tid => ScheduleResult.ok (allClassesQuery db tid)
    ⟨body, ⟨true, true⟩⟩

/-! Concrete fixtures, following the worked example of the spec:
teacher 5 teaches Schedule 12 of batch B1; Alice and Bob are the B1 roster;
one attendance row marks Alice present on 2024-01-01. -/

/-- Fixture teacher. -/
def wTeacher : Teacher := ⟨5, "T. Smith", "t@example.com", "pw"⟩

/-- Fixture schedule 12 for batch B1. -/
def wSchedule : Schedule := ⟨"12", 5, 1, 1, "B1", "Monday", "09:00:00", "10:00:00"⟩

/-- Fixture student Alice (batch B1). -/
def wAlice : Student := ⟨1, "Alice", "alice@example.com", "B1"⟩

/-- Fixture student Bob (batch B1). -/
def wBob : Student := ⟨2, "Bob", "bob@example.com", "B1"⟩

/-- Fixture attendance row: Alice present on 2024-01-01 in schedule 12. -/
def wRow : AttendanceRow := ⟨1, "12", "2024-01-01", "present", some "2024-01-01 09:05:00"⟩

/-- Fixture database. -/
def wDB : DB :=
  ⟨[wTeacher], [⟨1, "CS101"⟩], [⟨1, "Math"⟩], [wSchedule], [wBob, wAlice], [wRow]⟩

/-- Fixture session of a logged-in teacher. -/
def wSess : Session := ⟨some "teacher", some 5, some "T. Smith"⟩

/-- Fixture empty session (no keys set). -/
def wEmptySession : Session := ⟨none, none, none⟩

/-- C1: for a valid (schedule_id, date) pair — authenticated teacher, both
parameters present, the schedule id resolving to a schedule — `view_attendance`
answers `ok data` where `data` has exactly one record per student of the
schedule's batch, whatever the `attendance` table holds. -/
theorem view_attendance_count (db : DB) (sess : Session) (sid d : String) (sch : Schedule)
    (hauth : teacherAuthFails sess = false)
    (hsid : pyTruthyOptStr (some sid) = true)
    (hd : pyTruthyOptStr (some d) = true)
    (hsch : findSchedule db sid = some sch) :
    ∃ data, (view_attendance_run db sess (some sid) (some d) true none).resp = ViewResult.ok data ∧
      data.length = (db.students.filter (fun s => s.batch == sch.batch)).length := by
  refine ⟨(rosterForBatch db sch.batch).map
      (fun st => mergeRow st (lookupRecord (attendanceFor db sid d) st.student_id)), ?_, ?_⟩
  · simp [view_attendance_run, hauth, hsid, hd, hsch]
  · rw [List.length_map, rosterForBatch, List.length_insertionSort]

/-- Witness for C1 on the fixture database. -/
theorem view_attendance_count_witness :
    ∃ data, (view_attendance_run wDB wSess (some "12") (some "2024-01-01") true none).resp
        = ViewResult.ok data ∧
      data.length = (wDB.students.filter (fun s => s.batch == wSchedule.batch)).length :=
  view_attendance_count wDB wSess "12" "2024-01-01" wSchedule
    (by decide) (by decide) (by decide) (by decide)

/-- C2: under the same validity conditions, the attendance view is exactly the
roster mapped through `mergeRow` against the per-date record lookup; a roster
student whose lookup is empty is emitted with status `"absent"` and a `none`
timestamp, and one whose lookup finds a record is emitted with that record's
status. -/
theorem view_attendance_merge (db : DB) (sess : Session) (sid d : String) (sch : Schedule)
    (hauth : teacherAuthFails sess = false)
    (hsid : pyTruthyOptStr (some sid) = true)
    (hd : pyTruthyOptStr (some d) = true)
    (hsch : findSchedule db sid = some sch) :
    (view_attendance_run db sess (some sid) (some d) true none).resp =
      ViewResult.ok ((rosterForBatch db sch.batch).map
        (fun st => mergeRow st (lookupRecord (attendanceFor db sid d) st.student_id))) ∧
    (∀ st : Student, lookupRecord (attendanceFor db sid d) st.student_id = none →
      (mergeRow st (lookupRecord (attendanceFor db sid d) st.student_id)).status = "absent" ∧
      (mergeRow st (lookupRecord (attendanceFor db sid d) st.student_id)).timestamp = none) ∧
    (∀ (st : Student) (rec : AttendanceRow),
      lookupRecord (attendanceFor db sid d) st.student_id = some rec →
      (mergeRow st (lookupRecord (attendanceFor db sid d) st.student_id)).status = rec.status) := by
  refine ⟨by simp [view_attendance_run, hauth, hsid, hd, hsch], ?_, ?_⟩
  · intro st hnone
    rw [hnone]
    exact ⟨rfl, rfl⟩
  · intro st rec hsome
    rw [hsome]
    rfl

/-- Witness for C2 on the fixture database: Alice has a record, Bob has none. -/
theorem view_attendance_merge_witness :
    (view_attendance_run wDB wSess (some "12") (some "2024-01-01") true none).resp =
      ViewResult.ok ((rosterForBatch wDB wSchedule.batch).map
        (fun st => mergeRow st
          (lookupRecord (attendanceFor wDB "12" "2024-01-01") st.student_id))) ∧
    (∀ st : Student, lookupRecord (attendanceFor wDB "12" "2024-01-01") st.student_id = none →
      (mergeRow st
        (lookupRecord (attendanceFor wDB "12" "2024-01-01") st.student_id)).status = "absent" ∧
      (mergeRow st
        (lookupRecord (attendanceFor wDB "12" "2024-01-01") st.student_id)).timestamp = none) ∧
    (∀ (st : Student) (rec : AttendanceRow),
      lookupRecord (attendanceFor wDB "12" "2024-01-01") st.student_id = some rec →
      (mergeRow st
        (lookupRecord (attendanceFor wDB "12" "2024-01-01") st.student_id)).status
          = rec.status) :=
  view_attendance_merge wDB wSess "12" "2024-01-01" wSchedule
    (by decide) (by decide) (by decide) (by decide)

/-- C3 counterexample: `/api/teacher/session` is reachable without any
session yet answers HTTP 200 (with `logged_in: false`), not 401 — the handler
is not wrapped in `teacher_required`. -/
theorem teacher_session_not_gated :
    teacherAuthFails wEmptySession = true ∧
    (teacher_session wEmptySession).1 = SessionResult.notLoggedIn ∧
    (teacher_session wEmptySession).2 = 200 ∧
    (teacher_session wEmptySession).2 ≠ 401 := by
  decide

/-- C3 amended: without a session marking the caller as a teacher, every
`/api/teacher/*` endpoint that is wrapped in `teacher_required` (schedule,
today_classes, all_classes, class_students, mark_attendance, attendance)
answers 401 with no data, and the decorator denies every `/api/` path; the one
exception is `/api/teacher/session`, which answers 200 with `logged_in: false`
and no teacher data. -/
theorem api_teacher_auth_gate (db : DB) (sess : Session) (p : String)
    (sid d : Option String) (today : String) (ad : Option (List AttendanceItem))
    (connOk : Bool) (dbFault : Option String)
    (h : teacherAuthFails sess = true)
    (hp : pyStartsWith p "/api/" = true) :
    teacher_required sess p = Gate.deny401 ∧
    (get_teacher_schedule db sess connOk dbFault).resp
      = ScheduleResult.error 401 "Authentication required" ∧
    (get_today_classes db sess today connOk dbFault).resp
      = ScheduleResult.error 401 "Authentication required" ∧
    (get_all_teacher_classes db sess connOk dbFault).resp
      = ScheduleResult.error 401 "Authentication required" ∧
    (get_class_students_run db sess sid connOk dbFault).resp
      = StudentsResult.error 401 "Authentication required" ∧
    (mark_attendance_run db sess sid d ad connOk dbFault).resp
      = MarkResult.error 401 "Authentication required" ∧
    (view_attendance_run db sess sid d connOk dbFault).resp
      = ViewResult.error 401 "Authentication required" ∧
    teacher_session sess = (SessionResult.notLoggedIn, 200) := by
  have hut : (sess.user_type == some "teacher") = false := by
    cases hu : sess.user_type with
    | none => rfl
    | some t =>
      rw [teacherAuthFails, hu] at h
      simp only [ne_eq, decide_not, Bool.not_eq_eq_eq_not, Bool.not_true,
        decide_eq_false_iff_not] at h
      simp [h]
  refine ⟨?_, ?_, ?_, ?_, ?_, ?_, ?_, ?_⟩
  · simp [teacher_required, h, hp]
  · simp [get_teacher_schedule, h]
  · simp [get_today_classes, h]
  · simp [get_all_teacher_classes, h]
  · simp [get_class_students_run, h]
  · simp [mark_attendance_run, h]
  · simp [view_attendance_run, h]
  · simp [teacher_session, hut]

/-- Witness for the amended C3 on the fixture database with an empty session. -/
theorem api_teacher_auth_gate_witness :
    teacher_required wEmptySession "/api/teacher/attendance" = Gate.deny401 ∧
    (get_teacher_schedule wDB wEmptySession true none).resp
      = ScheduleResult.error 401 "Authentication required" ∧
    (get_today_classes wDB wEmptySession "Monday" true none).resp
      = ScheduleResult.error 401 "Authentication required" ∧
    (get_all_teacher_classes wDB wEmptySession true none).resp
      = ScheduleResult.error 401 "Authentication required" ∧
    (get_class_students_run wDB wEmptySession (some "12") true none).resp
      = StudentsResult.error 401 "Authentication required" ∧
    (mark_attendance_run wDB wEmptySession (some "12") (some "2024-01-01")
        (some [⟨some 1, some "present"⟩]) true none).resp
      = MarkResult.error 401 "Authentication required" ∧
    (view_attendance_run wDB wEmptySession (some "12") (some "2024-01-01") true none).resp
      = ViewResult.error 401 "Authentication required" ∧
    teacher_session wEmptySession = (SessionResult.notLoggedIn, 200) :=
  api_teacher_auth_gate wDB wEmptySession "/api/teacher/attendance"
    (some "12") (some "2024-01-01") "Monday" (some [⟨some 1, some "present"⟩])
    true none (by decide) (by decide)

/-- C4: when the credentials and parameters are in order, the upsert records
build successfully and the database raises an error during the write, the
whole batch is rolled back — the `attendance` table is exactly the one before
the request — and the caller gets the 500 failure JSON carrying the error
text; there is no partial-success outcome. -/
theorem mark_attendance_rollback (db : DB) (sess : Session) (sid d : String)
    (items : List AttendanceItem) (recs : List UpsertRecord) (msg : String)
    (hauth : teacherAuthFails sess = false)
    (hsid : pyTruthyOptStr (some sid) = true)
    (hd : pyTruthyOptStr (some d) = true)
    (hitems : pyTruthyOptList (some items) = true)
    (hrecs : buildRecords sid d items = Except.ok recs) :
    (mark_attendance_run db sess (some sid) (some d) (some items) true (some msg)).resp
      = MarkResult.error 500 msg ∧
    (mark_attendance_run db sess (some sid) (some d) (some items) true (some msg)).attendance
      = db.attendance := by
  constructor <;> simp [mark_attendance_run, hauth, hsid, hd, hitems, hrecs]

/-- Witness for C4: a one-record batch against the fixture database with a
faulting write. -/
theorem mark_attendance_rollback_witness :
    (mark_attendance_run wDB wSess (some "12") (some "2024-01-01")
        (some [⟨some 2, some "present"⟩]) true (some "Lock wait timeout")).resp
      = MarkResult.error 500 "Lock wait timeout" ∧
    (mark_attendance_run wDB wSess (some "12") (some "2024-01-01")
        (some [⟨some 2, some "present"⟩]) true (some "Lock wait timeout")).attendance
      = wDB.attendance :=
  mark_attendance_rollback wDB wSess "12" "2024-01-01" [⟨some 2, some "present"⟩]
    [⟨2, "12", "2024-01-01", "present"⟩] "Lock wait timeout"
    (by decide) (by decide) (by decide) (by decide) (by rfl)

/-- C5: `get_class_students` answers 400 when `schedule_id` is absent from the
request and 404 when it matches no schedule; both responses carry only an
error message, no student data. -/
theorem get_class_students_error_paths (db : DB) (sess : Session) (sid : String)
    (connOk : Bool) (dbFault : Option String)
    (hauth : teacherAuthFails sess = false)
    (hsid : pyTruthyOptStr (some sid) = true)
    (hfind : findSchedule db sid = none) :
    (get_class_students_run db sess none connOk dbFault).resp
      = StudentsResult.error 400 "Schedule ID is required." ∧
    (get_class_students_run db sess (some sid) true none).resp
      = StudentsResult.error 404 "Schedule not found." := by
  constructor
  · simp [get_class_students_run, hauth, pyTruthyOptStr]
  · simp [get_class_students_run, hauth, hsid, hfind]

/-- Witness for C5 on the fixture database: schedule "99" does not exist. -/
theorem get_class_students_error_paths_witness :
    (get_class_students_run wDB wSess none true none).resp
      = StudentsResult.error 400 "Schedule ID is required." ∧
    (get_class_students_run wDB wSess (some "99") true none).resp
      = StudentsResult.error 404 "Schedule not found." :=
  get_class_students_error_paths wDB wSess "99" true none
    (by decide) (by decide) (by decide)

/-- C6: for an existing schedule, `get_class_students` returns exactly the
students whose batch equals the schedule's batch — the result is a
permutation of that filter of the `Students` table — ordered by name; the
result is a function of the batch alone, so the schedule's `class_id` plays
no role. -/
theorem get_class_students_roster (db : DB) (sess : Session) (sid : String) (sch : Schedule)
    (hauth : teacherAuthFails sess = false)
    (hsid : pyTruthyOptStr (some sid) = true)
    (hsch : findSchedule db sid = some sch) :
    (get_class_students_run db sess (some sid) true none).resp
      = StudentsResult.ok (rosterForBatch db sch.batch) ∧
    List.Perm (rosterForBatch db sch.batch)
      (db.students.filter (fun s => s.batch == sch.batch)) ∧
    List.Sorted studentLE (rosterForBatch db sch.batch) := by
  exact ⟨by simp [get_class_students_run, hauth, hsid, hsch],
    List.perm_insertionSort _ _, List.sorted_insertionSort _ _⟩

/-- Witness for C6 on the fixture database (roster of batch B1, Alice before
Bob even though Bob is stored first). -/
theorem get_class_students_roster_witness :
    (get_class_students_run wDB wSess (some "12") true none).resp
      = StudentsResult.ok (rosterForBatch wDB wSchedule.batch) ∧
    List.Perm (rosterForBatch wDB wSchedule.batch)
      (wDB.students.filter (fun s => s.batch == wSchedule.batch)) ∧
    List.Sorted studentLE (rosterForBatch wDB wSchedule.batch) :=
  get_class_students_roster wDB wSess "12" wSchedule (by decide) (by decide) (by decide)

/-- C7: with both fields present, a login attempt whose (email, password) pair
matches no `Teachers` row answers 401 and leaves the session exactly as it
was; a matching pair answers success and stores the teacher's identity in the
session. -/
theorem teacher_login_credentials (db : DB) (sess : Session) (email password : String)
    (found : Option Teacher)
    (he : pyTruthyOptStr (some email) = true)
    (hp : pyTruthyOptStr (some password) = true)
    (hfind : findTeacher db email password = found) :
    (teacher_login_action db sess (some email) (some password) true none).resp
      = (match found with
         | none => LoginResult.error 401 "Invalid credentials."
         | some t => LoginResult.ok t.name t.teacher_id) ∧
    (teacher_login_action db sess (some email) (some password) true none).sess
      = (match found with
         | none => sess
         | some t => ⟨some "teacher", some t.teacher_id, some t.name⟩) := by
  cases found with
  | none => constructor <;> simp [teacher_login_action, he, hp, hfind]
  | some t => constructor <;> simp [teacher_login_action, he, hp, hfind]

/-- Witness for C7: wrong password misses, leaving the empty session empty;
(the `none` branch of the conclusion). -/
theorem teacher_login_credentials_witness :
    (teacher_login_action wDB wEmptySession (some "t@example.com") (some "wrong") true none).resp
      = (match (none : Option Teacher) with
         | none => LoginResult.error 401 "Invalid credentials."
         | some t => LoginResult.ok t.name t.teacher_id) ∧
    (teacher_login_action wDB wEmptySession (some "t@example.com") (some "wrong") true none).sess
      = (match (none : Option Teacher) with
         | none => wEmptySession
         | some t => ⟨some "teacher", some t.teacher_id, some t.name⟩) :=
  teacher_login_credentials wDB wEmptySession "t@example.com" "wrong" none
    (by decide) (by decide) (by decide)

/-- An `attendance_data` list whose only item lacks the `student_id` key. -/
def wBadItems : List AttendanceItem := [⟨none, some "present"⟩]

/-- C8 counterexample: a well-typed `mark_attendance` request whose
`attendance_data` item lacks `student_id` raises a `KeyError` that the handler
does not catch — the outcome is an unhandled exception, not the uniform
`{success: false, message}` JSON shape. -/
theorem mark_attendance_keyerror :
    (mark_attendance_run wDB wSess (some "12") (some "2024-01-01")
        (some wBadItems) true none).resp
      = MarkResult.unhandled "KeyError: student_id" ∧
    isUniformJsonError
      ((mark_attendance_run wDB wSess (some "12") (some "2024-01-01")
          (some wBadItems) true none).resp) = false := by
  decide

/-- C8 amended: in `mark_attendance` only `mysql.connector.Error` is caught at
the handler boundary and converted to the uniform JSON error shape; when the
record-building comprehension raises a `KeyError` (an item missing
`student_id` or `status`), the exception escapes the handler and no uniform
JSON error is produced. -/
theorem mark_attendance_error_boundary (db : DB) (sess : Session) (sid d : String)
    (items : List AttendanceItem) (msg : String)
    (built : Except String (List UpsertRecord))
    (hauth : teacherAuthFails sess = false)
    (hsid : pyTruthyOptStr (some sid) = true)
    (hd : pyTruthyOptStr (some d) = true)
    (hitems : pyTruthyOptList (some items) = true)
    (hbuilt : buildRecords sid d items = built) :
    (mark_attendance_run db sess (some sid) (some d) (some items) true (some msg)).resp
      = (match built with
         | Except.ok _ => MarkResult.error 500 msg
         | Except.error e => MarkResult.unhandled e) ∧
    isUniformJsonError
      ((mark_attendance_run db sess (some sid) (some d) (some items) true (some msg)).resp)
      = (match built with
         | Except.ok _ => true
         | Except.error _ => false) := by
  cases built with
  | ok recs =>
    constructor <;> simp [mark_attendance_run, isUniformJsonError, hauth, hsid, hd, hitems, hbuilt]
  | error e =>
    constructor <;> simp [mark_attendance_run, isUniformJsonError, hauth, hsid, hd, hitems, hbuilt]

/-- Witness for the amended C8: an item without `status` escapes as a
`KeyError` even though the database would also have faulted. -/
theorem mark_attendance_error_boundary_witness :
    (mark_attendance_run wDB wSess (some "12") (some "2024-01-01")
        (some [⟨some 2, none⟩]) true (some "Deadlock")).resp
      = (match (Except.error "KeyError: status" : Except String (List UpsertRecord)) with
         | Except.ok _ => MarkResult.error 500 "Deadlock"
         | Except.error e => MarkResult.unhandled e) ∧
    isUniformJsonError
      ((mark_attendance_run wDB wSess (some "12") (some "2024-01-01")
          (some [⟨some 2, none⟩]) true (some "Deadlock")).resp)
      = (match (Except.error "KeyError: status" : Except String (List UpsertRecord)) with
         | Except.ok _ => true
         | Except.error _ => false) :=
  mark_attendance_error_boundary wDB wSess "12" "2024-01-01" [⟨some 2, none⟩]
    "Deadlock" (Except.error "KeyError: status")
    (by decide) (by decide) (by decide) (by decide) (by rfl)

/-- C9: in every handler that opens a database connection —
`teacher_login_action`, `get_teacher_schedule`, `get_today_classes`,
`get_all_teacher_classes`, `get_class_students`, `mark_attendance` and
`view_attendance` — the `finally` block closes the connection exactly when
one was acquired: on the success path, the early 404 return, the caught
database error and the uncaught exception alike. -/
theorem connections_released (db : DB) (sess : Session) (email pw sid d : Option String)
    (today : String) (ad : Option (List AttendanceItem)) (connOk : Bool)
    (dbFault : Option String) :
    (teacher_login_action db sess email pw connOk dbFault).conn.closed
      = (teacher_login_action db sess email pw connOk dbFault).conn.acquired ∧
    (get_teacher_schedule db sess connOk dbFault).conn.closed
      = (get_teacher_schedule db sess connOk dbFault).conn.acquired ∧
    (get_today_classes db sess today connOk dbFault).conn.closed
      = (get_today_classes db sess today connOk dbFault).conn.acquired ∧
    (get_all_teacher_classes db sess connOk dbFault).conn.closed
      = (get_all_teacher_classes db sess connOk dbFault).conn.acquired ∧
    (get_class_students_run db sess sid connOk dbFault).conn.closed
      = (get_class_students_run db sess sid connOk dbFault).conn.acquired ∧
    (mark_attendance_run db sess sid d ad connOk dbFault).conn.closed
      = (mark_attendance_run db sess sid d ad connOk dbFault).conn.acquired ∧
    (view_attendance_run db sess sid d connOk dbFault).conn.closed
      = (view_attendance_run db sess sid d connOk dbFault).conn.acquired := by
  refine ⟨?_, ?_, ?_, ?_, ?_, ?_, ?_⟩
  · unfold teacher_login_action
    split_ifs
    · rfl
    · rfl
    · cases dbFault with
      | some msg => rfl
      | none =>
        cases findTeacher db (email.getD "") (pw.getD "") with
        | some t => rfl
        | none => rfl
  · unfold get_teacher_schedule
    split_ifs <;> rfl
  · unfold get_today_classes
    split_ifs <;> rfl
  · unfold get_all_teacher_classes
    split_ifs <;> rfl
  · unfold get_class_students_run
    split_ifs <;> rfl
  · unfold mark_attendance_run
    split_ifs <;> rfl
  · unfold view_attendance_run
    split_ifs <;> rfl

/-- C10: a `mark_attendance` request whose `attendance_data` is present but an
empty list is rejected with the 400 "Missing required data." error —
`all([...])` treats the empty list like a missing field — the attendance table
is untouched and no connection is even opened. -/
theorem mark_attendance_empty_list (db : DB) (sess : Session) (sid d : String)
    (connOk : Bool) (dbFault : Option String)
    (hauth : teacherAuthFails sess = false)
    (hsid : pyTruthyOptStr (some sid) = true)
    (hd : pyTruthyOptStr (some d) = true) :
    mark_attendance_run db sess (some sid) (some d) (some []) connOk dbFault
      = ⟨MarkResult.error 400 "Missing required data.", db.attendance, ⟨false, false⟩⟩ := by
  simp [mark_attendance_run, hauth, hsid, hd, pyTruthyOptList]

/-- Witness for C10 on the fixture database. -/
theorem mark_attendance_empty_list_witness :
    mark_attendance_run wDB wSess (some "12") (some "2024-01-01") (some []) true none
      = ⟨MarkResult.error 400 "Missing required data.", wDB.attendance, ⟨false, false⟩⟩ :=
  mark_attendance_empty_list wDB wSess "12" "2024-01-01" true none
    (by decide) (by decide) (by decide)

end TeacherApp
